import Mathlib

/-!
Shallow embedding of the authenticated GraphQL transport of
`src/frontend/src/libs/apolloClient.ts`: credential store access, the
`authLink` header attachment, the `errorLink` auth-failure interception
with single-flight token refresh and request queuing, and the proactive
refresh run by `performTokenValidation` at initialization.

The JavaScript module is single-threaded and event-loop driven; its
suspension points are the refresh network call and result delivery.  We
model it as a step machine: a `SysState` carries the credential store,
the `isRefreshing` flag, the `pendingRequests` queue and the outstanding
refresh (if any); an `Event` is one event-loop turn (a first-pass result
arriving at `errorLink`, the refresh promise settling, the
initialization hook running, or the result of a retried forward
arriving); `step` runs the corresponding handler code synchronously and
emits the externally observable `Action`s in program order.
-/

namespace ApolloTransport

/-- A GraphQL operation as seen by the links: its `operationName` (which
may be absent) and an identity used to track it through queuing and
replay. -/
structure Operation where
  id : Nat
  name : Option String
deriving DecidableEq, Repr

/-- The credential store: `localStorage` restricted to the two keys
`accessToken` and `refreshToken`.  `none` models an absent key;
`some s` models `getItem` returning the string `s`. -/
structure Store where
  accessToken : Option String
  refreshToken : Option String
deriving DecidableEq, Repr

/-- JavaScript truthiness of a `string | null` value: `null` and the
empty string are falsy. -/
def truthy : Option String → Bool
  | none => false
  | some s => !(s == "")

/-- Embeds `setAccessToken`: stores a truthy token, removes the key
otherwise. -/
def setAccessToken (s : Store) (t : Option String) : Store :=
  if truthy t then { s with accessToken := t } else { s with accessToken := none }

/-- Embeds `setRefreshToken`: stores a truthy token, removes the key
otherwise. -/
def setRefreshToken (s : Store) (t : Option String) : Store :=
  if truthy t then { s with refreshToken := t } else { s with refreshToken := none }

/-- Embeds `logout`: removes both tokens from the store (the Apollo
cache reset has no effect on the transport state modelled here). -/
def logout (_ : Store) : Store :=
  { accessToken := none, refreshToken := none }

/-- Replaces the value of header `k` by `v` (object-spread semantics for
the key/value mapping: any previous binding of `k` is overridden). -/
def setHeader (hs : List (String × String)) (k v : String) : List (String × String) :=
  hs.filter (fun p => !(p.1 == k)) ++ [(k, v)]

/-- The `Authorization` header value built by the links. -/
def bearer (t : String) : String := "Bearer " ++ t

/-- Embeds `authLink`: reads the access token and, when it is truthy,
spreads `Authorization: Bearer <token>` into the context headers;
otherwise spreads the empty object, leaving the headers unchanged. -/
def authLinkHeaders (s : Store) (hs : List (String × String)) : List (String × String) :=
  match s.accessToken with
  | some a => if a == "" then hs else setHeader hs "Authorization" (bearer a)
  | none => hs

/-- Embeds the `noAuthOperations` list: operations that bypass the
auth-failure interception. -/
def noAuthOperations : List String :=
  ["login", "refreshtoken", "requestpasswordreset", "resetpassword", "registeradmin"]

/-- Embeds `toLowerCase()` on an operation name: character-wise
lowercasing (operation names are ASCII identifiers, on which JavaScript
`toLowerCase` acts exactly character-wise). -/
def lowerString (s : String) : String := ⟨s.data.map Char.toLower⟩

/-- Embeds `noAuthOperations.includes(operation.operationName?.toLowerCase())`:
an absent operation name is never in the list. -/
def isAuthOperation : Option String → Bool
  | some n => noAuthOperations.contains (lowerString n)
  | none => false

/-- Embeds the scan of `graphQLErrors` for an error whose
`extensions.code` is `UNAUTHENTICATED`.  Each list entry is one error's
optional extension code. -/
def hasUnauthenticated (codes : List (Option String)) : Bool :=
  codes.any (fun c => c == some "UNAUTHENTICATED")

/-- Outcome of the refresh network request, as seen by
`refreshAccessToken` after the `fetch`/`response.json()` awaits: either a
parsed `data.refreshToken` payload (whose fields may be missing, modelled
as the empty string), a thrown network error, or a response whose
`errors` array is non-empty (carrying the first error's message, possibly
empty). -/
inductive NetResult where
  | ok (accessToken refreshToken : String)
  | fetchError (msg : String)
  | gqlError (msg : String)
deriving DecidableEq, Repr

/-- Embeds the start of `refreshAccessToken()` up to its first await: if
the stored refresh token is truthy the `fetch` is issued with it
(`some token`); otherwise the function throws before any network request
(`none`). -/
def refreshStart (s : Store) : Option String :=
  if truthy s.refreshToken then s.refreshToken else none

/-- The message of the error thrown by `refreshAccessToken` for each
failing network outcome: the network error itself, the first GraphQL
error message (defaulted when falsy), or the invalid-shape message. -/
def errMsg : NetResult → String
  | .fetchError m => m
  | .gqlError m => if m == "" then "Token refresh failed" else m
  | .ok _ _ => "Invalid token response"

/-- Embeds the remainder of `refreshAccessToken` once its promise
settles.  With no token sent the promise was already rejected before the
`try` block, so the store is untouched.  With a request issued, a failure
inside the `try` reaches the `catch`, which calls `logout()` and
rethrows; a payload with both fields truthy is persisted and the new
access token returned. -/
def refreshSettle (s : Store) (sentToken : Option String) (net : NetResult) :
    Store × Except String String :=
  match sentToken with
  | none => (s, .error "No refresh token available")
  | some _ =>
    match net with
    | .fetchError m => (logout s, .error (errMsg (.fetchError m)))
    | .gqlError m => (logout s, .error (errMsg (.gqlError m)))
    | .ok a r =>
      if a == "" || r == "" then (logout s, .error "Invalid token response")
      else (setRefreshToken (setAccessToken s (some a)) (some r), .ok a)

/-- Who started the outstanding refresh: the `errorLink` handler (which
holds the original failed operation to retry) or `performTokenValidation`
at initialization. -/
inductive RefreshOrigin where
  | fromError (op : Operation)
  | fromInit
deriving DecidableEq, Repr

/-- An outstanding refresh: its origin and the refresh token sent in the
network call (`none` when the call failed fast with no request). -/
structure RefreshCtx where
  origin : RefreshOrigin
  sentToken : Option String
deriving DecidableEq, Repr

/-- The module-level mutable state of `apolloClient.ts`: the credential
store, `isRefreshing`, `pendingRequests` (each registered callback is
identified by the operation it captured), and the outstanding refresh
promise if one exists. -/
structure SysState where
  store : Store
  isRefreshing : Bool
  pendingRequests : List Operation
  activeRefresh : Option RefreshCtx
deriving DecidableEq, Repr

/-- Externally observable effects of one event-loop turn, in program
order: a refresh network request carrying a token, a retried
`forward(operation)` carrying its `Authorization` header value, an
`observer.error` rejection with a message, a result passed through to
the caller unmodified, the delivery of a retried forward's result to the
caller, or a `console.error` log. -/
inductive Action where
  | refreshFetch (token : String)
  | replay (op : Operation) (authHeader : String)
  | reject (op : Operation) (msg : String)
  | deliver (op : Operation)
  | deliverReplayResult (op : Operation)
  | logOnly (msg : String)
deriving DecidableEq, Repr

/-- Embeds the callback registered by `registerAfterRefresh` inside
`errorLink` (run later by `resolveAfterRefresh` or by the `catch`-side
drain): it re-reads the access token; if falsy it rejects the queued
operation with `Authentication required`, otherwise it retries the
operation with a fresh `Authorization` header. -/
def runPendingCallback (s : Store) (p : Operation) : Action :=
  match s.accessToken with
  | some a => if a == "" then .reject p "Authentication required" else .replay p (bearer a)
  | none => .reject p "Authentication required"

/-- Outcome of a retried `forward(operation)` issued inside `errorLink`:
its subscriber pipes `next`, `error` and `complete` straight to the
caller's observer, so only the carried operation matters; we keep the
error codes of a failed retry to state claims about them. -/
inductive RetryOutcome where
  | success
  | gqlErrors (codes : List (Option String))
  | netError
deriving DecidableEq, Repr

/-- One event-loop turn delivered to the transport: a first-pass result
with its GraphQL error codes arriving at `errorLink`, the outstanding
refresh promise settling with a network outcome, `performTokenValidation`
being invoked, or the result of a retried forward arriving at the
subscriber installed by `errorLink`. -/
inductive Event where
  | result (op : Operation) (codes : List (Option String))
  | settle (net : NetResult)
  | initValidation
  | retryResult (op : Operation) (out : RetryOutcome)
deriving DecidableEq, Repr

/-- Embeds one synchronous turn of the transport.

`result`: the `onError` handler.  A protected operation with an
`UNAUTHENTICATED` error either gets queued (refresh already in flight:
`registerAfterRefresh`, no network call) or flips `isRefreshing` and
invokes `refreshAccessToken`, which issues the network request exactly
when the stored refresh token is truthy.  Any other result falls through
the handler and is delivered unmodified.

`settle`: the continuations attached to the refresh promise.  For an
`errorLink` refresh, `.then` persists happened inside
`refreshAccessToken`, then the original operation's headers are rebuilt,
`resolveAfterRefresh` drains the queue in order, and the original
operation is forwarded; `.catch` drains the queue through the same
registered callbacks and rejects the original operation with the refresh
error; `.finally` clears `isRefreshing`.  For the initialization refresh
only `.catch`-logging and the `.finally` exist: the queue is untouched.

`initValidation`: `performTokenValidation` starts a refresh only when a
truthy refresh token is stored and no refresh is in flight.

`retryResult`: the subscriber of a retried forward passes the result to
the caller and touches no transport state. -/
def step (st : SysState) (ev : Event) : SysState × List Action :=
  match ev with
  | .result op codes =>
    if hasUnauthenticated codes && !(isAuthOperation op.name) then
      if st.isRefreshing then
        ({ st with pendingRequests := st.pendingRequests ++ [op] }, [])
      else
        let sent := refreshStart st.store
        ({ st with isRefreshing := true,
                   activeRefresh := some ⟨.fromError op, sent⟩ },
          match sent with
          | some t => [.refreshFetch t]
          | none => [])
    else
      (st, [.deliver op])
  | .settle net =>
    match st.activeRefresh with
    | none => (st, [])
    | some ctx =>
      let out := refreshSettle st.store ctx.sentToken net
      match ctx.origin with
      | .fromInit =>
        ({ st with store := out.1, isRefreshing := false, activeRefresh := none },
          match out.2 with
          | .ok _ => []
          | .error m => [.logOnly m])
      | .fromError op =>
        match out.2 with
        | .ok a =>
          ({ store := out.1, isRefreshing := false, pendingRequests := [],
             activeRefresh := none },
            st.pendingRequests.map (runPendingCallback out.1) ++ [.replay op (bearer a)])
        | .error m =>
          ({ store := out.1, isRefreshing := false, pendingRequests := [],
             activeRefresh := none },
            st.pendingRequests.map (runPendingCallback out.1) ++ [.reject op m])
  | .initValidation =>
    if truthy st.store.refreshToken && !st.isRefreshing then
      ({ st with isRefreshing := true,
                 activeRefresh := some ⟨.fromInit, refreshStart st.store⟩ },
        match refreshStart st.store with
        | some t => [.refreshFetch t]
        | none => [])
    else
      (st, [])
  | .retryResult op _ => (st, [.deliverReplayResult op])

/-- Runs a sequence of event-loop turns, concatenating the emitted
actions in order. -/
def run (st : SysState) : List Event → SysState × List Action
  | [] => (st, [])
  | ev :: evs =>
    let s1 := step st ev
    let s2 := run s1.1 evs
    (s2.1, s1.2 ++ s2.2)

/-- Counts the refresh network requests in an action trace. -/
def countFetches (as : List Action) : Nat :=
  (as.filter (fun a => match a with | .refreshFetch _ => true | _ => false)).length

/-- Tests whether an action retries (replays) some operation. -/
def isReplay : Action → Bool
  | .replay _ _ => true
  | _ => false

/-- Counts the retried forwards of the operation with identity `i` in an
action trace. -/
def replayCount (as : List Action) (i : Nat) : Nat :=
  (as.filter (fun a => match a with | .replay op _ => op.id == i | _ => false)).length

/-- Counts the first-pass results delivered for the operation with
identity `i` in an event sequence. -/
def resultCount (evs : List Event) (i : Nat) : Nat :=
  (evs.filter (fun e => match e with | .result op _ => op.id == i | _ => false)).length

/-- The original operation held by an `errorLink` refresh in flight, if
any. -/
def activeTail : Option RefreshCtx → List Operation
  | some ⟨.fromError op, _⟩ => [op]
  | _ => []

/-- The operations currently held by the transport for a later retry:
the queued ones, plus the original operation of an `errorLink` refresh in
flight. -/
def heldOps (st : SysState) : List Operation :=
  st.pendingRequests ++ activeTail st.activeRefresh

theorem activeTail_none_eq : activeTail none = [] := rfl

theorem activeTail_fromInit_eq (tk : Option String) :
    activeTail (some ⟨.fromInit, tk⟩) = [] := rfl

theorem activeTail_fromError_eq (op : Operation) (tk : Option String) :
    activeTail (some ⟨.fromError op, tk⟩) = [op] := rfl

/-- Counts the occurrences of identity `i` in a list of operations. -/
def opCount (l : List Operation) (i : Nat) : Nat :=
  (l.filter (fun o => o.id == i)).length

/-- Tests whether a network outcome makes `refreshAccessToken` throw
after an issued request: a thrown fetch error, a GraphQL error payload,
or a payload missing one of the two token fields. -/
def netFails : NetResult → Bool
  | .ok a r => a == "" || r == ""
  | .fetchError _ => true
  | .gqlError _ => true

/-- Tests whether an event is a first-pass result that enters the
auth-failure interception: a protected (non-exempt) operation whose
errors include an `UNAUTHENTICATED` code. -/
def protectedAuthFailure : Event → Bool
  | .result op codes => hasUnauthenticated codes && !(isAuthOperation op.name)
  | _ => false

/-! ### Helper lemmas -/

theorem countFetches_append (as bs : List Action) :
    countFetches (as ++ bs) = countFetches as + countFetches bs := by
  simp [countFetches, List.filter_append]

theorem replayCount_append (as bs : List Action) (i : Nat) :
    replayCount (as ++ bs) i = replayCount as i + replayCount bs i := by
  simp [replayCount, List.filter_append]

theorem opCount_append (l1 l2 : List Operation) (i : Nat) :
    opCount (l1 ++ l2) i = opCount l1 i + opCount l2 i := by
  simp [opCount, List.filter_append]

theorem replayCount_cons (x : Action) (as : List Action) (i : Nat) :
    replayCount (x :: as) i = replayCount [x] i + replayCount as i := by
  simp only [replayCount, List.filter_cons, List.filter_nil]
  split <;> simp <;> omega

theorem opCount_cons (p : Operation) (t : List Operation) (i : Nat) :
    opCount (p :: t) i = opCount [p] i + opCount t i := by
  simp only [opCount, List.filter_cons, List.filter_nil]
  split <;> simp <;> omega

theorem replayCount_map_runPendingCallback_le (s : Store) (l : List Operation) (i : Nat) :
    replayCount (l.map (runPendingCallback s)) i ≤ opCount l i := by
  induction l with
  | nil => simp [replayCount, opCount]
  | cons p t ih =>
    rw [List.map_cons, replayCount_cons, opCount_cons]
    have h1 : replayCount [runPendingCallback s p] i ≤ opCount [p] i := by
      rcases hs : s.accessToken with _ | a
      · simp [runPendingCallback, hs, replayCount, opCount, List.filter_cons]
      · by_cases ha : a = ""
        · simp [runPendingCallback, hs, ha, replayCount, opCount, List.filter_cons]
        · have ha2 : (a == "") = false := beq_eq_false_iff_ne.mpr ha
          simp only [runPendingCallback, hs, ha2, Bool.false_eq_true, if_false,
            replayCount, opCount, List.filter_cons, List.filter_nil]
          split <;> simp
    omega

theorem lookup_setHeader_self (hs : List (String × String)) (k v : String) :
    List.lookup k (setHeader hs k v) = some v := by
  induction hs with
  | nil => simp [setHeader, List.lookup]
  | cons p t ih =>
    by_cases h : p.1 = k
    · have hb : (p.1 == k) = true := beq_iff_eq.mpr h
      simpa [setHeader, List.filter_cons, hb] using ih
    · have hb : (p.1 == k) = false := beq_eq_false_iff_ne.mpr h
      have hb2 : (k == p.1) = false := beq_eq_false_iff_ne.mpr (Ne.symm h)
      simpa [setHeader, List.filter_cons, hb, List.lookup, hb2] using ih

theorem lookup_setHeader_ne (hs : List (String × String)) (k v k2 : String) (h : k2 ≠ k) :
    List.lookup k2 (setHeader hs k v) = List.lookup k2 hs := by
  have hk2 : (k2 == k) = false := beq_eq_false_iff_ne.mpr h
  induction hs with
  | nil => simp [setHeader, List.lookup, hk2]
  | cons p t ih =>
    by_cases hp : p.1 = k
    · have hb : (p.1 == k) = true := beq_iff_eq.mpr hp
      have hk2p : (k2 == p.1) = false := by
        rw [hp]; exact hk2
      simpa [setHeader, List.filter_cons, hb, List.lookup, hk2p] using ih
    · have hb : (p.1 == k) = false := beq_eq_false_iff_ne.mpr hp
      by_cases hq : k2 = p.1
      · have hq2 : (k2 == p.1) = true := beq_iff_eq.mpr hq
        simp [setHeader, List.filter_cons, hb, List.lookup, hq2]
      · have hq2 : (k2 == p.1) = false := beq_eq_false_iff_ne.mpr hq
        simpa [setHeader, List.filter_cons, hb, List.lookup, hq2] using ih

/-! ### Claims -/

/-- C4: for every exempt operation (its lowercased name is in the
`noAuthOperations` list: login, token refresh, password-reset
request/apply, first-admin registration), a result carrying any error
codes — in particular an `UNAUTHENTICATED` one — never triggers the
refresh procedure and never enqueues a pending operation: the transport
state is unchanged and the result is delivered to the caller
unmodified. -/
theorem C4_exempt_operations_bypass :
    ∀ (st : SysState) (op : Operation) (codes : List (Option String)) (n : String),
      op.name = some n → lowerString n ∈ noAuthOperations →
      step st (.result op codes) = (st, [.deliver op]) := by
  intro st op codes n hn hmem
  have hAuth : isAuthOperation op.name = true := by
    rw [hn]
    simpa [isAuthOperation] using hmem
  simp [step, hAuth]

/-- Witness for C4 at a concrete input: a `Login` operation failing with
an `UNAUTHENTICATED` error while the transport is idle passes through
unchanged. -/
theorem C4_witness :
    step ⟨⟨some "A1", some "R1"⟩, false, [], none⟩
        (.result ⟨7, some "Login"⟩ [some "UNAUTHENTICATED"]) =
      (⟨⟨some "A1", some "R1"⟩, false, [], none⟩, [.deliver ⟨7, some "Login"⟩]) :=
  C4_exempt_operations_bypass ⟨⟨some "A1", some "R1"⟩, false, [], none⟩
    ⟨7, some "Login"⟩ [some "UNAUTHENTICATED"] "Login" rfl (by decide)

/-- C10: exempt matching lowercases the operation name before comparing
with the (lowercase) exempt list, so it is case-insensitive; an
operation whose lowercased name is not in the list is protected, and so
is an operation with no operation name at all — their `UNAUTHENTICATED`
errors enter the refresh-and-replay path (enqueue while a refresh is in
flight, start a refresh otherwise). -/
theorem C10_protected_by_default :
    (∀ s1 s2 : String, lowerString s1 = lowerString s2 →
      isAuthOperation (some s1) = isAuthOperation (some s2))
    ∧ isAuthOperation none = false
    ∧ (∀ (st : SysState) (op : Operation) (codes : List (Option String)),
        op.name = none → hasUnauthenticated codes = true → st.isRefreshing = true →
        step st (.result op codes) =
          ({ st with pendingRequests := st.pendingRequests ++ [op] }, []))
    ∧ (∀ (st : SysState) (op : Operation) (codes : List (Option String)) (n : String),
        op.name = some n → noAuthOperations.contains (lowerString n) = false →
        hasUnauthenticated codes = true → st.isRefreshing = false →
        (step st (.result op codes)).1.isRefreshing = true
          ∧ (step st (.result op codes)).1.activeRefresh =
              some ⟨.fromError op, refreshStart st.store⟩) := by
  refine ⟨?_, rfl, ?_, ?_⟩
  · intro s1 s2 h
    simp [isAuthOperation, h]
  · intro st op codes hn hu hr
    have hAuth : isAuthOperation op.name = false := by rw [hn]; rfl
    simp [step, hAuth, hu, hr]
  · intro st op codes n hn hc hu hr
    have hAuth : isAuthOperation op.name = false := by rw [hn]; simpa [isAuthOperation] using hc
    simp [step, hAuth, hu, hr]

/-- Witness for C10 at concrete inputs: `LOGIN` and `login` classify
identically; a nameless operation failing auth while a refresh is in
flight is enqueued; a `getDocs` failure while idle flips the transport
to refreshing. -/
theorem C10_witness :
    isAuthOperation (some "LOGIN") = isAuthOperation (some "login")
    ∧ step ⟨⟨some "A1", some "R1"⟩, true, [], some ⟨.fromInit, some "R1"⟩⟩
        (.result ⟨4, none⟩ [some "UNAUTHENTICATED"]) =
        (⟨⟨some "A1", some "R1"⟩, true, [⟨4, none⟩], some ⟨.fromInit, some "R1"⟩⟩, [])
    ∧ (step ⟨⟨some "A1", some "R1"⟩, false, [], none⟩
        (.result ⟨5, some "getDocs"⟩ [some "UNAUTHENTICATED"])).1.isRefreshing = true :=
  ⟨C10_protected_by_default.1 "LOGIN" "login" (by decide),
   C10_protected_by_default.2.2.1 ⟨⟨some "A1", some "R1"⟩, true, [], some ⟨.fromInit, some "R1"⟩⟩
     ⟨4, none⟩ [some "UNAUTHENTICATED"] rfl (by decide) rfl,
   (C10_protected_by_default.2.2.2 ⟨⟨some "A1", some "R1"⟩, false, [], none⟩
     ⟨5, some "getDocs"⟩ [some "UNAUTHENTICATED"] "getDocs" rfl (by decide) (by decide) rfl).1⟩

/-- C8 fails as stated: with the access token present in the store but
equal to the empty string (a present key), JavaScript truthiness makes
`authLink` spread the empty object, so no `Authorization` header is
attached even though a token is present. -/
theorem C8_counterexample :
    (Store.mk (some "") (some "R1")).accessToken = some ""
      ∧ List.lookup "Authorization"
          (authLinkHeaders ⟨some "", some "R1"⟩ [("X-Custom", "1")]) = none := by
  constructor
  · rfl
  · rfl

/-- C8 amended: `authLink` attaches `Authorization: Bearer <accessToken>`
exactly when the stored access token is present and non-empty, leaving
every other header unchanged; when the access token is absent — or
present but empty, hence falsy — the headers are forwarded completely
unchanged, so no `Authorization` header is added. -/
theorem C8_header_attachment :
    ∀ (s : Store) (hs : List (String × String)),
      (∀ a : String, s.accessToken = some a → a ≠ "" →
        List.lookup "Authorization" (authLinkHeaders s hs) = some (bearer a)
          ∧ ∀ k, k ≠ "Authorization" →
              List.lookup k (authLinkHeaders s hs) = List.lookup k hs)
      ∧ (truthy s.accessToken = false → authLinkHeaders s hs = hs) := by
  intro s hs
  constructor
  · intro a ha hne
    have hb : (a == "") = false := beq_eq_false_iff_ne.mpr hne
    constructor
    · simp [authLinkHeaders, ha, hb, lookup_setHeader_self]
    · intro k hk
      simp [authLinkHeaders, ha, hb, lookup_setHeader_ne _ _ _ _ hk]
  · intro hfalse
    rcases h : s.accessToken with _ | a
    · simp [authLinkHeaders, h]
    · rw [h] at hfalse
      simp [truthy] at hfalse
      simp [authLinkHeaders, h, hfalse]

/-- Witness for C8 at a concrete input: with access token `A1` stored,
the `Authorization` header carries `Bearer A1` and an unrelated header is
untouched; with no access token the headers pass through unchanged. -/
theorem C8_witness :
    List.lookup "Authorization"
        (authLinkHeaders ⟨some "A1", some "R1"⟩ [("X-Custom", "1")]) = some (bearer "A1")
      ∧ List.lookup "X-Custom"
          (authLinkHeaders ⟨some "A1", some "R1"⟩ [("X-Custom", "1")]) = some "1"
      ∧ authLinkHeaders ⟨none, none⟩ [("X-Custom", "1")] = [("X-Custom", "1")] :=
  ⟨((C8_header_attachment ⟨some "A1", some "R1"⟩ [("X-Custom", "1")]).1 "A1" rfl
      (by decide)).1,
   by
    have h2 := ((C8_header_attachment ⟨some "A1", some "R1"⟩ [("X-Custom", "1")]).1 "A1" rfl
      (by decide)).2 "X-Custom" (by decide)
    rw [h2]; rfl,
   (C8_header_attachment ⟨none, none⟩ [("X-Custom", "1")]).2 rfl⟩

/-- C9 fails as stated: with the refresh token key present in the store
but holding the empty string, JavaScript truthiness makes
`performTokenValidation` skip the refresh entirely — the transport stays
idle and no refresh request goes out even though a refresh token is
present, refuting the claimed "if and only if ... present". -/
theorem C9_counterexample :
    (Store.mk (some "A1") (some "")).refreshToken = some ""
      ∧ step ⟨⟨some "A1", some ""⟩, false, [], none⟩ .initValidation =
          (⟨⟨some "A1", some ""⟩, false, [], none⟩, []) :=
  ⟨rfl, rfl⟩

/-- C9 amended: `performTokenValidation` starts a best-effort refresh
if and only if the stored refresh token is present and non-empty
(truthy) and no refresh is in flight; while running it holds
`isRefreshing`; and when that refresh fails its error is only logged —
no operation is rejected, no retry is forwarded, and the pending queue
is left as it was. -/
theorem C9_proactive_initialization :
    (∀ (st : SysState) (t : String),
      st.store.refreshToken = some t → t ≠ "" → st.isRefreshing = false →
      step st .initValidation =
        ({ st with isRefreshing := true, activeRefresh := some ⟨.fromInit, some t⟩ },
          [.refreshFetch t]))
    ∧ (∀ st : SysState, truthy st.store.refreshToken = false ∨ st.isRefreshing = true →
        step st .initValidation = (st, []))
    ∧ (∀ (st : SysState) (tk : Option String) (net : NetResult) (m : String),
        st.activeRefresh = some ⟨.fromInit, tk⟩ →
        (refreshSettle st.store tk net).2 = .error m →
        step st (.settle net) =
          ({ st with store := (refreshSettle st.store tk net).1,
                     isRefreshing := false, activeRefresh := none },
            [.logOnly m])) := by
  refine ⟨?_, ?_, ?_⟩
  · intro st t hst hne hr
    have hb : (t == "") = false := beq_eq_false_iff_ne.mpr hne
    simp [step, refreshStart, truthy, hst, hb, hr]
  · intro st h
    rcases h with h | h
    · simp [step, h]
    · simp [step, h]
  · intro st tk net m hctx herr
    simp [step, hctx, herr]

/-- Witness for C9 at concrete inputs: with refresh token `R1` stored
and the transport idle, initialization issues the refresh request; with
no refresh token it does nothing; and a failing initialization refresh
only logs. -/
theorem C9_witness :
    step ⟨⟨some "A1", some "R1"⟩, false, [], none⟩ .initValidation =
        (⟨⟨some "A1", some "R1"⟩, true, [], some ⟨.fromInit, some "R1"⟩⟩, [.refreshFetch "R1"])
      ∧ step ⟨⟨some "A1", none⟩, false, [], none⟩ .initValidation =
          (⟨⟨some "A1", none⟩, false, [], none⟩, [])
      ∧ step ⟨⟨some "A1", some "R1"⟩, true, [], some ⟨.fromInit, some "R1"⟩⟩
          (.settle (.fetchError "down")) =
          (⟨⟨none, none⟩, false, [], none⟩, [.logOnly "down"]) :=
  ⟨C9_proactive_initialization.1 ⟨⟨some "A1", some "R1"⟩, false, [], none⟩ "R1" rfl
      (by decide) rfl,
   C9_proactive_initialization.2.1 ⟨⟨some "A1", none⟩, false, [], none⟩ (Or.inl rfl),
   C9_proactive_initialization.2.2 ⟨⟨some "A1", some "R1"⟩, true, [], some ⟨.fromInit, some "R1"⟩⟩
      (some "R1") (.fetchError "down") "down" rfl rfl⟩

/-- C5 fails as stated: when the proactive initialization refresh
settles — even successfully — the queue of operations that failed while
it was in flight is never drained (`performTokenValidation` has no
`resolveAfterRefresh` step), so the system does not return to an empty
queue: here a queued operation is still pending after settlement. -/
theorem C5_counterexample :
    (step ⟨⟨some "A1", some "R1"⟩, true, [⟨2, some "listImages"⟩],
        some ⟨.fromInit, some "R1"⟩⟩ (.settle (.ok "A2" "R2"))).1.isRefreshing = false
      ∧ (step ⟨⟨some "A1", some "R1"⟩, true, [⟨2, some "listImages"⟩],
          some ⟨.fromInit, some "R1"⟩⟩
          (.settle (.ok "A2" "R2"))).1.pendingRequests = [⟨2, some "listImages"⟩] :=
  ⟨rfl, rfl⟩

/-- C5 amended: whenever a refresh settles (success or failure), the
`isRefreshing` flag is cleared in the guaranteed `finally` step and the
outstanding refresh is gone; the pending queue is drained with that
refresh's outcome for refreshes started by the error interceptor, but
the proactive initialization refresh leaves the queue exactly as it
was — it is not drained. -/
theorem C5_settlement :
    ∀ (st : SysState) (ctx : RefreshCtx) (net : NetResult),
      st.activeRefresh = some ctx →
      (step st (.settle net)).1.isRefreshing = false
      ∧ (step st (.settle net)).1.activeRefresh = none
      ∧ (∀ op, ctx.origin = .fromError op → (step st (.settle net)).1.pendingRequests = [])
      ∧ (ctx.origin = .fromInit →
          (step st (.settle net)).1.pendingRequests = st.pendingRequests) := by
  intro st ctx net hctx
  rcases ctx with ⟨org, tk⟩
  cases org with
  | fromError op =>
    cases hout : (refreshSettle st.store tk net).2 with
    | error m => refine ⟨?_, ?_, ?_, ?_⟩ <;> simp [step, hctx, hout]
    | ok a => refine ⟨?_, ?_, ?_, ?_⟩ <;> simp [step, hctx, hout]
  | fromInit =>
    cases hout : (refreshSettle st.store tk net).2 with
    | error m => refine ⟨?_, ?_, ?_, ?_⟩ <;> simp [step, hctx, hout]
    | ok a => refine ⟨?_, ?_, ?_, ?_⟩ <;> simp [step, hctx, hout]

/-- Witness for C5 (amended) at a concrete input: an error-interceptor
refresh that fails clears the flag, the outstanding refresh, and drains
the queue. -/
theorem C5_witness :
    (step ⟨⟨some "A1", some "R1"⟩, true, [⟨2, none⟩],
        some ⟨.fromError ⟨1, some "getDocs"⟩, some "R1"⟩⟩
        (.settle (.fetchError "down"))).1.isRefreshing = false
      ∧ (step ⟨⟨some "A1", some "R1"⟩, true, [⟨2, none⟩],
          some ⟨.fromError ⟨1, some "getDocs"⟩, some "R1"⟩⟩
          (.settle (.fetchError "down"))).1.pendingRequests = [] :=
  ⟨(C5_settlement ⟨⟨some "A1", some "R1"⟩, true, [⟨2, none⟩],
      some ⟨.fromError ⟨1, some "getDocs"⟩, some "R1"⟩⟩ ⟨.fromError ⟨1, some "getDocs"⟩, some "R1"⟩
      (.fetchError "down") rfl).1,
   (C5_settlement ⟨⟨some "A1", some "R1"⟩, true, [⟨2, none⟩],
      some ⟨.fromError ⟨1, some "getDocs"⟩, some "R1"⟩⟩ ⟨.fromError ⟨1, some "getDocs"⟩, some "R1"⟩
      (.fetchError "down") rfl).2.2.1 ⟨1, some "getDocs"⟩ rfl⟩

/-- C7 fails as stated: the missing-refresh-token throw in
`refreshAccessToken` happens before its `try` block, so the `catch` that
calls `logout()` never runs.  Starting with an access token stored but
no refresh token, a protected auth failure triggers a fail-fast refresh:
no network request is issued (consistent with the claim), but the store
still holds the access token after the cycle — the tokens are not
cleared, contradicting the claim. -/
theorem C7_counterexample :
    countFetches (run ⟨⟨some "A1", none⟩, false, [], none⟩
        [.result ⟨1, some "getDocs"⟩ [some "UNAUTHENTICATED"],
         .settle (.fetchError "unused")]).2 = 0
      ∧ (run ⟨⟨some "A1", none⟩, false, [], none⟩
          [.result ⟨1, some "getDocs"⟩ [some "UNAUTHENTICATED"],
           .settle (.fetchError "unused")]).1.store.accessToken = some "A1" :=
  ⟨rfl, rfl⟩

/-- C7 amended: when the refresh procedure is invoked with no (truthy)
refresh token stored, it fails fast as a terminal error: no refresh
network request is ever issued, the original operation is rejected with
the missing-token error rather than retried, and the Credential Store is
left exactly unchanged — in particular the tokens are NOT cleared
(clearing happens only when an actually issued refresh request
fails). -/
theorem C7_missing_refresh_token :
    ∀ (st : SysState) (op : Operation) (codes : List (Option String)) (net : NetResult),
      st.isRefreshing = false → truthy st.store.refreshToken = false →
      hasUnauthenticated codes = true → isAuthOperation op.name = false →
      countFetches (run st [.result op codes, .settle net]).2 = 0
      ∧ (run st [.result op codes, .settle net]).1.store = st.store
      ∧ (run st [.result op codes, .settle net]).2 =
          st.pendingRequests.map (runPendingCallback st.store)
            ++ [.reject op "No refresh token available"] := by
  intro st op codes net hr hrt hu ha
  have hrun : run st [.result op codes, .settle net] =
      (⟨st.store, false, [], none⟩,
        st.pendingRequests.map (runPendingCallback st.store)
          ++ [.reject op "No refresh token available"]) := by
    simp [run, step, hr, hrt, hu, ha, refreshStart, refreshSettle]
  refine ⟨?_, ?_, ?_⟩ <;> rw [hrun]
  · simp [countFetches, List.filter_append]
    intro p _
    rcases hs : st.store.accessToken with _ | a
    · simp [runPendingCallback, hs]
    · by_cases hae : a = ""
      · simp [runPendingCallback, hs, hae]
      · have hb : (a == "") = false := beq_eq_false_iff_ne.mpr hae
        simp [runPendingCallback, hs, hb]

/-- Witness for C7 (amended) at a concrete input: access token stored,
refresh token absent, one protected auth failure. -/
theorem C7_witness :
    countFetches (run ⟨⟨some "A1", none⟩, false, [], none⟩
        [.result ⟨1, some "getSettings"⟩ [some "UNAUTHENTICATED"],
         .settle (.fetchError "unused")]).2 = 0
      ∧ (run ⟨⟨some "A1", none⟩, false, [], none⟩
          [.result ⟨1, some "getSettings"⟩ [some "UNAUTHENTICATED"],
           .settle (.fetchError "unused")]).1.store = ⟨some "A1", none⟩
      ∧ (run ⟨⟨some "A1", none⟩, false, [], none⟩
          [.result ⟨1, some "getSettings"⟩ [some "UNAUTHENTICATED"],
           .settle (.fetchError "unused")]).2 =
            [.reject ⟨1, some "getSettings"⟩ "No refresh token available"] :=
  C7_missing_refresh_token ⟨⟨some "A1", none⟩, false, [], none⟩ ⟨1, some "getSettings"⟩
    [some "UNAUTHENTICATED"] (.fetchError "unused") rfl rfl rfl (by decide)

/-- C2: when an issued refresh request fails (thrown network error,
GraphQL error payload, or invalid/missing token fields in the
response), the `catch` inside `refreshAccessToken` clears both tokens
from the store, and the `errorLink` failure path rejects every queued
pending operation with `Authentication required` and the original
operation with the refresh error, emptying the queue. -/
theorem C2_refresh_failure_terminal :
    ∀ (st : SysState) (op : Operation) (tok : String) (net : NetResult),
      st.activeRefresh = some ⟨.fromError op, some tok⟩ →
      netFails net = true →
      (step st (.settle net)).1.store.accessToken = none
      ∧ (step st (.settle net)).1.store.refreshToken = none
      ∧ (step st (.settle net)).2 =
          st.pendingRequests.map (fun p => Action.reject p "Authentication required")
            ++ [Action.reject op (errMsg net)]
      ∧ (step st (.settle net)).1.pendingRequests = [] := by
  intro st op tok net hctx hfail
  have hfun : runPendingCallback ⟨none, none⟩ = fun p => Action.reject p "Authentication required" :=
    funext fun _ => rfl
  cases net with
  | fetchError m =>
    refine ⟨?_, ?_, ?_, ?_⟩ <;> simp [step, hctx, refreshSettle, logout, errMsg, hfun]
  | gqlError m =>
    refine ⟨?_, ?_, ?_, ?_⟩ <;> simp [step, hctx, refreshSettle, logout, errMsg, hfun]
  | ok a r =>
    have hb : (a == "" || r == "") = true := hfail
    refine ⟨?_, ?_, ?_, ?_⟩ <;> simp [step, hctx, refreshSettle, logout, errMsg, hb, hfun]

/-- Witness for C2 at a concrete input: one queued operation, refresh
request fails with a network error. -/
theorem C2_witness :
    (step ⟨⟨some "A1", some "R1"⟩, true, [⟨2, some "listImages"⟩],
        some ⟨.fromError ⟨1, some "getDocs"⟩, some "R1"⟩⟩
        (.settle (.fetchError "net down"))).1.store.accessToken = none
      ∧ (step ⟨⟨some "A1", some "R1"⟩, true, [⟨2, some "listImages"⟩],
          some ⟨.fromError ⟨1, some "getDocs"⟩, some "R1"⟩⟩
          (.settle (.fetchError "net down"))).1.store.refreshToken = none
      ∧ (step ⟨⟨some "A1", some "R1"⟩, true, [⟨2, some "listImages"⟩],
          some ⟨.fromError ⟨1, some "getDocs"⟩, some "R1"⟩⟩
          (.settle (.fetchError "net down"))).2 =
            [Action.reject ⟨2, some "listImages"⟩ "Authentication required",
             Action.reject ⟨1, some "getDocs"⟩ "net down"]
      ∧ (step ⟨⟨some "A1", some "R1"⟩, true, [⟨2, some "listImages"⟩],
          some ⟨.fromError ⟨1, some "getDocs"⟩, some "R1"⟩⟩
          (.settle (.fetchError "net down"))).1.pendingRequests = [] :=
  C2_refresh_failure_terminal ⟨⟨some "A1", some "R1"⟩, true, [⟨2, some "listImages"⟩],
    some ⟨.fromError ⟨1, some "getDocs"⟩, some "R1"⟩⟩ ⟨1, some "getDocs"⟩ "R1"
    (.fetchError "net down") rfl rfl

/-- C3: when the refresh request started by the error interceptor
settles successfully with a token pair, all queued pending operations
are replayed in enqueue order (then the original operation), each with
an `Authorization: Bearer <token>` header carrying exactly the access
token produced by that refresh, and the store holds that pair; moreover
no event other than a refresh settlement ever emits a replay, so queued
operations are replayed only after the refresh settles. -/
theorem C3_ordering_and_token_freshness :
    (∀ (st : SysState) (op : Operation) (tok a r : String),
      st.activeRefresh = some ⟨.fromError op, some tok⟩ → a ≠ "" → r ≠ "" →
      step st (.settle (.ok a r)) =
        ({ store := ⟨some a, some r⟩, isRefreshing := false, pendingRequests := [],
           activeRefresh := none },
          st.pendingRequests.map (fun p => Action.replay p (bearer a))
            ++ [Action.replay op (bearer a)]))
    ∧ (∀ (st : SysState) (ev : Event),
        (∀ net, ev ≠ .settle net) →
        (step st ev).2.filter isReplay = []) := by
  constructor
  · intro st op tok a r hctx ha hr2
    have hba : (a == "") = false := beq_eq_false_iff_ne.mpr ha
    have hbr : (r == "") = false := beq_eq_false_iff_ne.mpr hr2
    have hfun : runPendingCallback ⟨some a, some r⟩ = fun p => Action.replay p (bearer a) := by
      funext p
      simp [runPendingCallback, hba]
    simp [step, hctx, refreshSettle, hba, hbr, setAccessToken, setRefreshToken, truthy, hfun]
  · intro st ev hne
    cases ev with
    | result op codes =>
      by_cases h1 : (hasUnauthenticated codes && !isAuthOperation op.name) = true
      · by_cases h2 : st.isRefreshing = true
        · simp [step, h1, h2, isReplay]
        · rcases hs : refreshStart st.store with _ | t <;>
            simp [step, h1, h2, hs, isReplay]
      · simp [step, h1, isReplay]
    | settle net => exact absurd rfl (hne net)
    | initValidation =>
      by_cases h1 : (truthy st.store.refreshToken && !st.isRefreshing) = true
      · rcases hs : refreshStart st.store with _ | t <;>
          simp [step, h1, hs, isReplay]
      · simp [step, h1, isReplay]
    | retryResult op out => simp [step, isReplay]

/-- Witness for C3 at a concrete input: two queued operations and the
original are replayed in order with the freshly produced token `A2`; a
first-pass result event emits no replay. -/
theorem C3_witness :
    step ⟨⟨some "A1", some "R1"⟩, true, [⟨2, some "listImages"⟩, ⟨3, some "getSettings"⟩],
        some ⟨.fromError ⟨1, some "getDocs"⟩, some "R1"⟩⟩ (.settle (.ok "A2" "R2")) =
      (⟨⟨some "A2", some "R2"⟩, false, [], none⟩,
        [Action.replay ⟨2, some "listImages"⟩ (bearer "A2"),
         Action.replay ⟨3, some "getSettings"⟩ (bearer "A2"),
         Action.replay ⟨1, some "getDocs"⟩ (bearer "A2")])
      ∧ (step ⟨⟨some "A1", some "R1"⟩, false, [], none⟩
          (.result ⟨9, some "getDocs"⟩ [some "UNAUTHENTICATED"])).2.filter isReplay = [] :=
  ⟨C3_ordering_and_token_freshness.1 ⟨⟨some "A1", some "R1"⟩, true,
      [⟨2, some "listImages"⟩, ⟨3, some "getSettings"⟩],
      some ⟨.fromError ⟨1, some "getDocs"⟩, some "R1"⟩⟩ ⟨1, some "getDocs"⟩ "R1" "A2" "R2"
      rfl (by decide) (by decide),
   C3_ordering_and_token_freshness.2 ⟨⟨some "A1", some "R1"⟩, false, [], none⟩
      (.result ⟨9, some "getDocs"⟩ [some "UNAUTHENTICATED"]) (fun net h => by cases h)⟩

theorem run_while_refreshing (evs : List Event) :
    ∀ st : SysState, st.isRefreshing = true →
      (∀ e ∈ evs, protectedAuthFailure e = true) →
      (run st evs).2 = [] ∧ (run st evs).1.isRefreshing = true := by
  induction evs with
  | nil => exact fun st h _ => ⟨rfl, h⟩
  | cons ev t ih =>
    intro st h hall
    have hev := hall ev (List.mem_cons_self ev t)
    cases ev with
    | result op codes =>
      have hc : (hasUnauthenticated codes && !isAuthOperation op.name) = true := hev
      have hstep : step st (.result op codes) =
          ({ st with pendingRequests := st.pendingRequests ++ [op] }, []) := by
        simp [step, hc, h]
      have hrest := ih { st with pendingRequests := st.pendingRequests ++ [op] } h
        (fun e he => hall e (List.mem_cons_of_mem _ he))
      simpa [run, hstep] using hrest
    | settle net => simp [protectedAuthFailure] at hev
    | initValidation => simp [protectedAuthFailure] at hev
    | retryResult op out => simp [protectedAuthFailure] at hev

/-- C1 fails as stated: with no tokens stored at all and no refresh in
flight, a protected operation failing with `UNAUTHENTICATED` makes
`refreshAccessToken` throw before its `fetch`, so zero — not exactly
one — refresh network calls are issued. -/
theorem C1_counterexample :
    (SysState.mk ⟨none, none⟩ false [] none).isRefreshing = false
      ∧ countFetches (run ⟨⟨none, none⟩, false, [], none⟩
          [.result ⟨1, some "getDocs"⟩ [some "UNAUTHENTICATED"]]).2 = 0 :=
  ⟨rfl, rfl⟩

/-- C1 amended: for any wave of N ≥ 1 protected operations failing with
`UNAUTHENTICATED` while no refresh is in flight, at most one refresh
network call is issued — exactly one when a (truthy) refresh token is
stored and none when it is absent (the attempt fails fast); and every
protected operation whose auth failure is observed while `isRefreshing`
is set is enqueued as a pending operation and never initiates a second
refresh call. -/
theorem C1_single_flight :
    (∀ (st : SysState) (ev : Event) (evs : List Event),
      st.isRefreshing = false →
      protectedAuthFailure ev = true →
      (∀ e ∈ evs, protectedAuthFailure e = true) →
      countFetches (run st (ev :: evs)).2 =
        (if truthy st.store.refreshToken then 1 else 0))
    ∧ (∀ (st : SysState) (op : Operation) (codes : List (Option String)),
        st.isRefreshing = true → hasUnauthenticated codes = true →
        isAuthOperation op.name = false →
        step st (.result op codes) =
          ({ st with pendingRequests := st.pendingRequests ++ [op] }, [])) := by
  constructor
  · intro st ev evs hr hev hall
    cases ev with
    | result op codes =>
      have hc : (hasUnauthenticated codes && !isAuthOperation op.name) = true := hev
      have h1 : step st (.result op codes) =
          ({ st with isRefreshing := true,
                     activeRefresh := some ⟨.fromError op, refreshStart st.store⟩ },
            match refreshStart st.store with
            | some t => [.refreshFetch t]
            | none => []) := by
        simp [step, hc, hr]
      have h2 := run_while_refreshing evs
        { st with isRefreshing := true,
                  activeRefresh := some ⟨.fromError op, refreshStart st.store⟩ } rfl hall
      rw [show run st (Event.result op codes :: evs) =
          ((run (step st (Event.result op codes)).1 evs).1,
            (step st (Event.result op codes)).2
              ++ (run (step st (Event.result op codes)).1 evs).2) from rfl,
        h1]
      simp only [countFetches_append, h2.1]
      rcases h : st.store.refreshToken with _ | t
      · simp [refreshStart, truthy, h, countFetches]
      · by_cases ht : t = ""
        · simp [refreshStart, truthy, h, ht, countFetches]
        · have hb : (t == "") = false := beq_eq_false_iff_ne.mpr ht
          simp [refreshStart, truthy, h, hb, countFetches]
    | settle net => simp [protectedAuthFailure] at hev
    | initValidation => simp [protectedAuthFailure] at hev
    | retryResult op out => simp [protectedAuthFailure] at hev
  · intro st op codes hr hu ha
    simp [step, hu, ha, hr]

/-- Witness for C1 (amended) at concrete inputs: three protected
operations fail in the same wave with tokens stored — exactly one
refresh request goes out; and an auth failure observed mid-refresh is
enqueued with no actions emitted. -/
theorem C1_witness :
    countFetches (run ⟨⟨some "A1", some "R1"⟩, false, [], none⟩
        [.result ⟨1, some "getDocs"⟩ [some "UNAUTHENTICATED"],
         .result ⟨2, some "listImages"⟩ [some "UNAUTHENTICATED"],
         .result ⟨3, some "getSettings"⟩ [some "UNAUTHENTICATED"]]).2 = 1
      ∧ step ⟨⟨some "A1", some "R1"⟩, true, [], some ⟨.fromError ⟨1, some "getDocs"⟩, some "R1"⟩⟩
          (.result ⟨2, some "listImages"⟩ [some "UNAUTHENTICATED"]) =
          (⟨⟨some "A1", some "R1"⟩, true, [⟨2, some "listImages"⟩],
            some ⟨.fromError ⟨1, some "getDocs"⟩, some "R1"⟩⟩, []) :=
  ⟨C1_single_flight.1 ⟨⟨some "A1", some "R1"⟩, false, [], none⟩
      (.result ⟨1, some "getDocs"⟩ [some "UNAUTHENTICATED"])
      [.result ⟨2, some "listImages"⟩ [some "UNAUTHENTICATED"],
       .result ⟨3, some "getSettings"⟩ [some "UNAUTHENTICATED"]]
      rfl (by decide) (by decide),
   C1_single_flight.2 ⟨⟨some "A1", some "R1"⟩, true, [],
      some ⟨.fromError ⟨1, some "getDocs"⟩, some "R1"⟩⟩ ⟨2, some "listImages"⟩
      [some "UNAUTHENTICATED"] rfl (by decide) (by decide)⟩

theorem resultCount_cons (ev : Event) (t : List Event) (i : Nat) :
    resultCount (ev :: t) i = resultCount [ev] i + resultCount t i := by
  simp only [resultCount, List.filter_cons, List.filter_nil]
  split <;> simp <;> omega

theorem opCount_single_eq_resultCount (op : Operation) (codes : List (Option String)) (i : Nat) :
    opCount [op] i = resultCount [Event.result op codes] i := by
  cases h : (op.id == i) <;>
    simp [opCount, resultCount, List.filter_cons, h]

theorem replayCount_single_replay (op : Operation) (b : String) (i : Nat) :
    replayCount [Action.replay op b] i = opCount [op] i := by
  cases h : (op.id == i) <;>
    simp [replayCount, opCount, List.filter_cons, h]

theorem step_replay_bound (st : SysState) (ev : Event) (i : Nat) :
    replayCount (step st ev).2 i + opCount (heldOps (step st ev).1) i ≤
      opCount (heldOps st) i + resultCount [ev] i := by
  cases ev with
  | result op codes =>
    have hres := opCount_single_eq_resultCount op codes i
    by_cases h1 : (hasUnauthenticated codes && !isAuthOperation op.name) = true
    · by_cases h2 : st.isRefreshing = true
      · have hstep : step st (.result op codes) =
            ({ st with pendingRequests := st.pendingRequests ++ [op] }, []) := by
          simp [step, h1, h2]
        rw [hstep]
        simp only [heldOps]
        simp only [opCount_append]
        have h0 : replayCount [] i = 0 := rfl
        omega
      · have hstep : step st (.result op codes) =
            ({ st with isRefreshing := true,
                       activeRefresh := some ⟨.fromError op, refreshStart st.store⟩ },
              match refreshStart st.store with
              | some t => [Action.refreshFetch t]
              | none => []) := by
          simp [step, h1, h2]
        rw [hstep]
        simp only [heldOps, activeTail]
        simp only [opCount_append]
        have h0 : replayCount (match refreshStart st.store with
            | some t => [Action.refreshFetch t]
            | none => []) i = 0 := by
          rcases refreshStart st.store with _ | t <;> rfl
        omega
    · have hstep : step st (.result op codes) = (st, [.deliver op]) := by
        simp [step, h1]
      rw [hstep]
      dsimp only
      have h0 : replayCount [Action.deliver op] i = 0 := rfl
      omega
  | settle net =>
    have hrc : resultCount [Event.settle net] i = 0 := rfl
    rcases hact : st.activeRefresh with _ | ctx
    · have hstep : step st (.settle net) = (st, []) := by simp [step, hact]
      rw [hstep]
      dsimp only
      have h0 : replayCount [] i = 0 := rfl
      omega
    · rcases ctx with ⟨org, tk⟩
      cases org with
      | fromInit =>
        cases hout : (refreshSettle st.store tk net).2 with
        | error m =>
          have hstep : step st (.settle net) =
              ({ st with store := (refreshSettle st.store tk net).1,
                         isRefreshing := false, activeRefresh := none },
                [Action.logOnly m]) := by
            simp [step, hact, hout]
          rw [hstep]
          simp only [heldOps, hact, activeTail]
          simp only [opCount_append]
          have h0 : replayCount [Action.logOnly m] i = 0 := rfl
          omega
        | ok a =>
          have hstep : step st (.settle net) =
              ({ st with store := (refreshSettle st.store tk net).1,
                         isRefreshing := false, activeRefresh := none }, []) := by
            simp [step, hact, hout]
          rw [hstep]
          simp only [heldOps, hact, activeTail]
          simp only [opCount_append]
          have h0 : replayCount [] i = 0 := rfl
          omega
      | fromError op =>
        cases hout : (refreshSettle st.store tk net).2 with
        | error m =>
          have hstep : step st (.settle net) =
              (⟨(refreshSettle st.store tk net).1, false, [], none⟩,
                st.pendingRequests.map (runPendingCallback (refreshSettle st.store tk net).1)
                  ++ [Action.reject op m]) := by
            simp [step, hact, hout]
          rw [hstep]
          have hmap := replayCount_map_runPendingCallback_le
            (refreshSettle st.store tk net).1 st.pendingRequests i
          simp only [heldOps, hact, activeTail, replayCount_append]
          simp only [opCount_append]
          have h0 : replayCount [Action.reject op m] i = 0 := rfl
          have hz : opCount ([] : List Operation) i = 0 := rfl
          omega
        | ok a =>
          have hstep : step st (.settle net) =
              (⟨(refreshSettle st.store tk net).1, false, [], none⟩,
                st.pendingRequests.map (runPendingCallback (refreshSettle st.store tk net).1)
                  ++ [Action.replay op (bearer a)]) := by
            simp [step, hact, hout]
          rw [hstep]
          have hmap := replayCount_map_runPendingCallback_le
            (refreshSettle st.store tk net).1 st.pendingRequests i
          have hone := replayCount_single_replay op (bearer a) i
          simp only [heldOps, hact, activeTail, replayCount_append]
          simp only [opCount_append]
          have hz : opCount ([] : List Operation) i = 0 := rfl
          omega
  | initValidation =>
    have hrc : resultCount [Event.initValidation] i = 0 := rfl
    by_cases h1 : (truthy st.store.refreshToken && !st.isRefreshing) = true
    · have hstep : step st .initValidation =
          ({ st with isRefreshing := true,
                     activeRefresh := some ⟨.fromInit, refreshStart st.store⟩ },
            match refreshStart st.store with
            | some t => [Action.refreshFetch t]
            | none => []) := by
        simp [step, h1]
      rw [hstep]
      dsimp only
      simp only [heldOps, activeTail_fromInit_eq]
      simp only [opCount_append]
      have h0 : replayCount (match refreshStart st.store with
          | some t => [Action.refreshFetch t]
          | none => []) i = 0 := by
        rcases refreshStart st.store with _ | t <;> rfl
      have hz : opCount ([] : List Operation) i = 0 := rfl
      omega
    · have hstep : step st .initValidation = (st, []) := by simp [step, h1]
      rw [hstep]
      dsimp only
      have h0 : replayCount [] i = 0 := rfl
      omega
  | retryResult op out =>
    have hstep : step st (.retryResult op out) = (st, [.deliverReplayResult op]) := rfl
    rw [hstep]
    dsimp only
    have h0 : replayCount [Action.deliverReplayResult op] i = 0 := rfl
    have hrc : resultCount [Event.retryResult op out] i = 0 := rfl
    omega
theorem run_replay_bound (evs : List Event) :
    ∀ (st : SysState) (i : Nat),
      replayCount (run st evs).2 i + opCount (heldOps (run st evs).1) i ≤
        opCount (heldOps st) i + resultCount evs i := by
  induction evs with
  | nil =>
    intro st i
    have h0 : replayCount [] i = 0 := rfl
    have h1 : resultCount ([] : List Event) i = 0 := rfl
    dsimp only [run]
    omega
  | cons ev t ih =>
    intro st i
    have h1 := step_replay_bound st ev i
    have h2 := ih (step st ev).1 i
    have h3 := resultCount_cons ev t i
    rw [show run st (ev :: t) =
        ((run (step st ev).1 t).1, (step st ev).2 ++ (run (step st ev).1 t).2) from rfl]
    simp only [replayCount_append]
    omega

/-- C6: the subscriber installed for a retried `forward(operation)` sits
past `errorLink` in the link chain (`from([errorLink, authLink,
httpLink])`), so a replayed operation's result — even one carrying an
`UNAUTHENTICATED` error again — is delivered to the caller with the
transport state untouched: it is not re-queued and starts no refresh.
Consequently, over any event sequence starting with an empty queue and
no refresh in flight in which each operation delivers at most one
first-pass result, no operation is replayed more than once due to auth
failure. -/
theorem C6_at_most_one_retry :
    (∀ (st : SysState) (op : Operation) (out : RetryOutcome),
      step st (.retryResult op out) = (st, [.deliverReplayResult op]))
    ∧ (∀ (st : SysState) (evs : List Event) (i : Nat),
        st.pendingRequests = [] → st.activeRefresh = none →
        resultCount evs i ≤ 1 →
        replayCount (run st evs).2 i ≤ 1) := by
  constructor
  · intro st op out
    rfl
  · intro st evs i hp ha hres
    have h := run_replay_bound evs st i
    have hheld : opCount (heldOps st) i = 0 := by
      simp [heldOps, hp, ha, activeTail_none_eq, opCount]
    omega

/-- Witness for C6 at concrete inputs: a replayed operation failing auth
again merely propagates; and over a full wave (two failures, one
settlement, one retried failure), each operation is replayed at most
once. -/
theorem C6_witness :
    step ⟨⟨some "A2", some "R2"⟩, false, [], none⟩
        (.retryResult ⟨1, some "getDocs"⟩ (.gqlErrors [some "UNAUTHENTICATED"])) =
      (⟨⟨some "A2", some "R2"⟩, false, [], none⟩, [.deliverReplayResult ⟨1, some "getDocs"⟩])
      ∧ replayCount (run ⟨⟨some "A1", some "R1"⟩, false, [], none⟩
          [.result ⟨1, some "getDocs"⟩ [some "UNAUTHENTICATED"],
           .result ⟨2, some "listImages"⟩ [some "UNAUTHENTICATED"],
           .settle (.ok "A2" "R2"),
           .retryResult ⟨2, some "listImages"⟩ (.gqlErrors [some "UNAUTHENTICATED"])]).2 2 ≤ 1 :=
  ⟨C6_at_most_one_retry.1 ⟨⟨some "A2", some "R2"⟩, false, [], none⟩ ⟨1, some "getDocs"⟩
      (.gqlErrors [some "UNAUTHENTICATED"]),
   C6_at_most_one_retry.2 ⟨⟨some "A1", some "R1"⟩, false, [], none⟩
      [.result ⟨1, some "getDocs"⟩ [some "UNAUTHENTICATED"],
       .result ⟨2, some "listImages"⟩ [some "UNAUTHENTICATED"],
       .settle (.ok "A2" "R2"),
       .retryResult ⟨2, some "listImages"⟩ (.gqlErrors [some "UNAUTHENTICATED"])] 2
      rfl rfl (by decide)⟩

end ApolloTransport

